import Mathlib

/-!
# Verification of the DroneCAN node protocol engine

Shallow embedding of `lib/ArduinoDroneCANlib/src/dronecan.cpp` (class
`DroneCAN`, header `dronecan.h`) and proofs about the parameter server,
the dynamic node-ID allocation (DNA) client, the firmware-update read
flow, the transfer dispatcher and the transfer-acceptance predicate.

Modelling conventions:
* C `float` parameter values are modelled as `ℚ`; no claim below depends
  on floating-point rounding, only on storing and comparing values.
* The EEPROM (persistent parameter store) is a byte-offset-indexed map
  `Nat → ℚ`; every access in the source uses offset `index * 4` with a
  4-byte float, so one `ℚ` cell per written offset is faithful.
* C strings (parameter names) are Lean `String`s; the source's
  `strlen`/`memcmp` pair on NUL-free names is string equality.
* `uint32` millisecond arithmetic is `Nat` arithmetic; the one
  subtraction that could wrap (`now - looptime` in `cycle`) is modelled
  with explicit mod-2^32 arithmetic.
-/

/-- `enum uavcan_protocol_param_Value_type_t`: empty tag. -/
def UAVCAN_PROTOCOL_PARAM_VALUE_EMPTY : Nat := 0

/-- `enum uavcan_protocol_param_Value_type_t`: integer tag. -/
def UAVCAN_PROTOCOL_PARAM_VALUE_INTEGER_VALUE : Nat := 1

/-- `enum uavcan_protocol_param_Value_type_t`: real tag. -/
def UAVCAN_PROTOCOL_PARAM_VALUE_REAL_VALUE : Nat := 2

/-- `__FLT_MIN__`, the smallest positive normal `float`, `2^-126`;
used by `DroneCAN::getParameter` as its not-found sentinel. -/
def FLT_MIN : ℚ := 1 / 2 ^ 126

/-- `#define PREFERRED_NODE_ID 69` (dronecan.h). -/
def PREFERRED_NODE_ID : Nat := 69

/-- `struct DroneCAN::parameter` (dronecan.h): a named scalar with a
DSDL value-kind tag and configured bounds. -/
structure parameter where
  name : String
  type : Nat
  value : ℚ
  min_value : ℚ
  max_value : ℚ
  deriving Repr, DecidableEq

instance : Inhabited parameter := ⟨⟨"", 0, 0, 0, 0⟩⟩

/-- The persistent parameter store (Arduino `EEPROM`), byte offset ↦
stored float. -/
def EEPROM := Nat → ℚ

/-- `EEPROM.put(offset, v)`: point update of the store. -/
def eepromPut (e : EEPROM) (off : Nat) (v : ℚ) : EEPROM :=
  fun o => if o = off then v else e o

/-- `EEPROM.get(offset, out)`: read back a stored float. -/
def eepromGet (e : EEPROM) (off : Nat) : ℚ := e off

/-- `DroneCAN::getParameter(name)`: linear scan of the parameter list
for an exact name match, returning the stored value, or the sentinel
`__FLT_MIN__` when no parameter has that name. -/
def getParameter (ps : List parameter) (name : String) : ℚ :=
  match ps with
  | [] => FLT_MIN
  | p :: rest => if name = p.name then p.value else getParameter rest name

/-- `DroneCAN::setParameter(name, value)`: linear scan for an exact
name match; on a hit overwrite the in-memory value and return 0, on a
miss return -1.  The persistent store is NOT touched. -/
def setParameter (ps : List parameter) (name : String) (v : ℚ) :
    List parameter × Int :=
  match ps with
  | [] => ([], -1)
  | p :: rest =>
    if name = p.name then ({ p with value := v } :: rest, 0)
    else
      let (rest', r) := setParameter rest name v
      (p :: rest', r)

/-- `DroneCAN::get_preferred_node_id()`: read the "NODEID" parameter;
if the lookup returns the `__FLT_MIN__` sentinel, call
`setParameter("NODEID", PREFERRED_NODE_ID)` (an in-memory write only)
and return `PREFERRED_NODE_ID`, otherwise cast the stored float to
`uint8_t`.  Returns the id together with the (possibly updated)
parameter list; no EEPROM access occurs on this path. -/
def get_preferred_node_id (ps : List parameter) : Nat × List parameter :=
  if getParameter ps "NODEID" = FLT_MIN then
    (PREFERRED_NODE_ID, (setParameter ps "NODEID" (PREFERRED_NODE_ID : ℚ)).1)
  else
    (((getParameter ps "NODEID").floor.toNat) % 256, ps)

/-- `DroneCAN::read_parameter_memory`, generalized over the slot index
the loop starts at: `parameters[i].value = EEPROM.get(i * 4)` for each
parameter in declaration order. -/
def read_parameter_memory_from (i : Nat) (ps : List parameter) (e : EEPROM) :
    List parameter :=
  match ps with
  | [] => []
  | p :: rest =>
    { p with value := eepromGet e (i * 4) } :: read_parameter_memory_from (i + 1) rest e

/-- `DroneCAN::read_parameter_memory()`: reload every parameter's value
from its persistent slot at `index * 4`. -/
def read_parameter_memory (ps : List parameter) (e : EEPROM) : List parameter :=
  read_parameter_memory_from 0 ps e

/-- The `SAVE` loop of `DroneCAN::handle_param_ExecuteOpcode`,
generalized over the slot index it starts at:
`EEPROM.put(i * 4, parameters[i].value)` for each parameter. -/
def save_parameters_from (i : Nat) (ps : List parameter) (e : EEPROM) : EEPROM :=
  match ps with
  | [] => e
  | p :: rest => save_parameters_from (i + 1) rest (eepromPut e (i * 4) p.value)

/-- `UAVCAN_PROTOCOL_PARAM_EXECUTEOPCODE_REQUEST_OPCODE_SAVE` (DSDL). -/
def OPCODE_SAVE : Nat := 0

/-- `UAVCAN_PROTOCOL_PARAM_EXECUTEOPCODE_REQUEST_OPCODE_ERASE` (DSDL). -/
def OPCODE_ERASE : Nat := 1

/-- Decoded `uavcan_protocol_param_ExecuteOpcodeRequest`. -/
structure ExecuteOpcodeRequest where
  opcode : Nat
  deriving Repr, DecidableEq

/-- `uavcan_protocol_param_ExecuteOpcodeResponse` (only the `ok` flag
is ever set by the handler). -/
structure ExecuteOpcodeResponse where
  ok : Bool
  deriving Repr, DecidableEq

/-- `DroneCAN::handle_param_ExecuteOpcode` after a successful decode:
`ERASE` resets every in-memory value to that parameter's `min_value`;
`SAVE` writes every current value to its EEPROM slot at `i * 4`; the
response is always ok. -/
def handle_param_ExecuteOpcode (ps : List parameter) (e : EEPROM)
    (req : ExecuteOpcodeRequest) :
    List parameter × EEPROM × ExecuteOpcodeResponse :=
  let ps1 :=
    if req.opcode = OPCODE_ERASE then
      ps.map (fun p => { p with value := p.min_value })
    else ps
  let e1 :=
    if req.opcode = OPCODE_SAVE then save_parameters_from 0 ps1 e
    else e
  (ps1, e1, ⟨true⟩)

/-- Decoded `uavcan_protocol_param_GetSetRequest`.  The C `value` field
is a union; the handler reads the member selected by the *parameter's*
type tag, so both members are carried here side by side. -/
structure GetSetRequest where
  name : String
  index : Nat
  union_tag : Nat
  integer_value : Int
  real_value : ℚ
  deriving Repr, DecidableEq

/-- `uavcan_protocol_param_GetSetResponse` as filled by the handler
(zero-initialised by `memset`, so the not-found case carries tag
`EMPTY`, zero values and an empty name). -/
structure GetSetResponse where
  union_tag : Nat
  integer_value : Int
  real_value : ℚ
  name : String
  deriving Repr, DecidableEq

/-- Truncation toward zero, the C `float` → `int64_t` conversion used
when echoing an integer parameter's value into the response. -/
def truncToInt (q : ℚ) : Int := if 0 ≤ q then ⌊q⌋ else ⌈q⌉

/-- The name-scan loop of `DroneCAN::handle_param_GetSet`: the index of
the first parameter whose name equals the request's name (the source
compares `req.name.len == strlen(p.name)` and the bytes, i.e. exact
string equality). -/
def param_name_scan (req_name : String) : List parameter → Option Nat
  | [] => none
  | p :: rest =>
    if p.name = req_name then some 0
    else (param_name_scan req_name rest).map (· + 1)

/-- The lookup step of `DroneCAN::handle_param_GetSet`: `idx` starts as
`SIZE_MAX`; a non-empty request name triggers a linear scan by exact
name match; afterwards, if `idx` is still `SIZE_MAX` and
`req.index < parameters.size()`, the index is used positionally.
Returns `none` exactly when `idx` stays `SIZE_MAX`. -/
def param_lookup_idx (ps : List parameter) (req : GetSetRequest) : Option Nat :=
  let byName :=
    if req.name.length > 0 then param_name_scan req.name ps
    else none
  match byName with
  | some i => some i
  | none => if req.index < ps.length then some req.index else none

/-- `DroneCAN::handle_param_GetSet` after a successful decode: resolve
the parameter via `param_lookup_idx`; if resolved and the request
carries a non-empty value, overwrite the in-memory value for
integer/real kinds and write the slot back to EEPROM immediately;
always answer, echoing the resolved parameter's current
name/kind/value, or a zeroed response when nothing resolved. -/
def handle_param_GetSet (ps : List parameter) (e : EEPROM)
    (req : GetSetRequest) : List parameter × EEPROM × GetSetResponse :=
  match param_lookup_idx ps req with
  | none => (ps, e, ⟨UAVCAN_PROTOCOL_PARAM_VALUE_EMPTY, 0, 0, ""⟩)
  | some idx =>
    let p := ps.getD idx default
    let pe : List parameter × EEPROM :=
      if req.union_tag ≠ UAVCAN_PROTOCOL_PARAM_VALUE_EMPTY then
        if p.type = UAVCAN_PROTOCOL_PARAM_VALUE_INTEGER_VALUE then
          (ps.set idx { p with value := (req.integer_value : ℚ) },
           eepromPut e (idx * 4) (req.integer_value : ℚ))
        else if p.type = UAVCAN_PROTOCOL_PARAM_VALUE_REAL_VALUE then
          (ps.set idx { p with value := req.real_value },
           eepromPut e (idx * 4) req.real_value)
        else (ps, e)
      else (ps, e)
    let q := pe.1.getD idx default
    let rsp : GetSetResponse :=
      { union_tag := q.type
        integer_value :=
          if q.type = UAVCAN_PROTOCOL_PARAM_VALUE_INTEGER_VALUE then
            truncToInt q.value
          else 0
        real_value :=
          if q.type = UAVCAN_PROTOCOL_PARAM_VALUE_INTEGER_VALUE then 0
          else q.value
        name := q.name }
    (pe.1, pe.2, rsp)

/-! ## Dynamic node-ID allocation (DNA) client -/

/-- `UAVCAN_PROTOCOL_DYNAMIC_NODE_ID_ALLOCATION_MIN_REQUEST_PERIOD_MS`
(DSDL constant). -/
def DNA_MIN_REQUEST_PERIOD_MS : Nat := 600

/-- `UAVCAN_PROTOCOL_DYNAMIC_NODE_ID_ALLOCATION_MAX_FOLLOWUP_DELAY_MS`
(DSDL constant). -/
def DNA_MAX_FOLLOWUP_DELAY_MS : Nat := 400

/-- Decoded `uavcan_protocol_dynamic_node_id_Allocation` message:
a 7-bit node id and a unique-id fragment of `uid_len ≤ 16` bytes. -/
structure AllocationMsg where
  node_id : Nat
  uid_len : Nat
  uid_data : List Nat
  deriving Repr, DecidableEq

/-- `struct DroneCAN::dynamic_node_allocation` (dronecan.h). -/
structure dynamic_node_allocation where
  send_next_node_id_allocation_request_at_ms : Nat
  node_id_allocation_unique_id_offset : Nat
  deriving Repr, DecidableEq

/-- The engine state the DNA client touches: the canard-held local node
id (0 = `CANARD_BROADCAST_NODE_ID`, i.e. unallocated), the `DNA`
session struct, the parameter list (read by `get_preferred_node_id`
while building a request) and the static allocation transfer-id
counter. -/
structure DnaEngineState where
  node_id : Nat
  DNA : dynamic_node_allocation
  parameters : List parameter
  node_id_allocation_transfer_id : Nat
  deriving Repr, DecidableEq

/-- Modelled from the spec: the Transport Session collaborator's
`set_local_node_id` (libcanard `canardSetLocalNodeID`, not part of
this repository): the id is assigned only while the current id is the
broadcast id 0 and the new id is ≤ 127. -/
def canardSetLocalNodeID (current new_id : Nat) : Nat :=
  if current = 0 ∧ new_id ≤ 127 then new_id else current

/-- `DroneCAN::handle_DNA_Allocation`: no-op while already allocated;
otherwise re-arm the randomized retry timer (Rule C), treat a
broadcast-source message as contention (reset the unique-id offset),
compare the received unique-id fragment byte-for-byte against the
local unique id for the supplied length, and on a mismatch reset the
offset; a partial-length match confirms a stage (offset := length,
timer shortened by the minimum period); a full-length match adopts the
supplied node id via the transport session.  `now` is `millis()` and
`r` the raw `random()` draw. -/
def handle_DNA_Allocation (my_uid : List Nat) (now r src : Nat)
    (msg : AllocationMsg) (st : DnaEngineState) : DnaEngineState :=
  if st.node_id ≠ 0 then st
  else
    let next := now + DNA_MIN_REQUEST_PERIOD_MS + r % DNA_MAX_FOLLOWUP_DELAY_MS
    if src = 0 then
      { st with DNA := ⟨next, 0⟩ }
    else if msg.uid_data.take msg.uid_len ≠ my_uid.take msg.uid_len then
      { st with DNA := ⟨next, 0⟩ }
    else if msg.uid_len < 16 then
      { st with DNA := ⟨next - DNA_MIN_REQUEST_PERIOD_MS, msg.uid_len⟩ }
    else
      { st with DNA := ⟨next, st.DNA.node_id_allocation_unique_id_offset⟩,
                node_id := canardSetLocalNodeID st.node_id msg.node_id }

/-- `DroneCAN::request_DNA`: no-op once allocated or while the retry
timer has not expired; otherwise re-arm the timer, build the
allocation request (first byte = preferred id shifted left one bit,
low bit set when this is a first-stage request; then up to 6 bytes of
the unique id starting at the current offset), broadcast it, and reset
the unique-id offset to 0.  Returns the new state and the broadcast
payload when one was emitted. -/
def request_DNA (my_uid : List Nat) (now r : Nat) (st : DnaEngineState) :
    DnaEngineState × Option (List Nat) :=
  if st.node_id ≠ 0 then (st, none)
  else if now < st.DNA.send_next_node_id_allocation_request_at_ms then (st, none)
  else
    let next := now + DNA_MIN_REQUEST_PERIOD_MS + r % DNA_MAX_FOLLOWUP_DELAY_MS
    let (pref, params') := get_preferred_node_id st.parameters
    let first_byte :=
      (pref * 2) % 256 +
        (if st.DNA.node_id_allocation_unique_id_offset = 0 then 1 else 0)
    let us0 := 16 - st.DNA.node_id_allocation_unique_id_offset
    let us1 := if us0 > 6 then 6 else us0
    let uid_size :=
      if us1 + st.DNA.node_id_allocation_unique_id_offset > 16 then
        16 - st.DNA.node_id_allocation_unique_id_offset
      else us1
    let payload :=
      first_byte ::
        ((my_uid.drop st.DNA.node_id_allocation_unique_id_offset).take uid_size)
    ({ st with parameters := params',
               DNA := ⟨next, 0⟩,
               node_id_allocation_transfer_id :=
                 (st.node_id_allocation_transfer_id + 1) % 32 },
     some payload)

/-- One DNA-relevant engine event: an engine tick reaching
`request_DNA`, or the dispatcher delivering an allocation broadcast to
`handle_DNA_Allocation`.  These are the only two places in the source
that read or write the DNA session or emit allocation traffic. -/
inductive DnaEvent where
  | tick (now r : Nat)
  | alloc (now r src : Nat) (msg : AllocationMsg)
  deriving Repr, DecidableEq

/-- Step the DNA client by one event, returning the emitted allocation
request, if any. -/
def dna_step (my_uid : List Nat) (st : DnaEngineState) (ev : DnaEvent) :
    DnaEngineState × Option (List Nat) :=
  match ev with
  | .tick now r => request_DNA my_uid now r st
  | .alloc now r src msg => (handle_DNA_Allocation my_uid now r src msg st, none)

/-- Run the DNA client over a sequence of events, collecting every
allocation request broadcast along the way. -/
def dna_run (my_uid : List Nat) (st : DnaEngineState) :
    List DnaEvent → DnaEngineState × List (List Nat)
  | [] => (st, [])
  | ev :: evs =>
    let out := dna_step my_uid st ev
    let rest := dna_run my_uid out.1 evs
    (rest.1, out.2.toList ++ rest.2)

/-! ## Firmware-update read flow -/

/-- `struct DroneCAN::firmware_update` (dronecan.h), the fields the
read-response handler touches (`path`/`fd` are irrelevant here). -/
structure firmware_update where
  node_id : Nat
  transfer_id : Nat
  last_read_ms : Nat
  offset : Nat
  deriving Repr, DecidableEq

/-- Decoded `uavcan_protocol_file_ReadResponse`: the error code and the
payload chunk length. -/
structure ReadResponsePkt where
  error : Int
  data_len : Nat
  deriving Repr, DecidableEq

/-- `UAVCAN_PROTOCOL_FILE_ERROR_OK` (DSDL). -/
def UAVCAN_PROTOCOL_FILE_ERROR_OK : Int := 0

/-- `DroneCAN::handle_file_read_response`: a response is "for us" only
when its transfer id is one less (mod 32) than the stored next
transfer id and its source matches the session's remote node; anything
else returns before touching the session.  `decoded = none` models a
decode failure (also an early return).  An error code tears the
session down; success advances the byte offset by the chunk length and
zeroes the quiet-period timer. -/
def handle_file_read_response (fw : firmware_update)
    (rx_transfer_id rx_source_node_id : Nat)
    (decoded : Option ReadResponsePkt) : firmware_update :=
  if (rx_transfer_id + 1) % 32 ≠ fw.transfer_id ∨
      rx_source_node_id ≠ fw.node_id then fw
  else
    match decoded with
    | none => fw
    | some pkt =>
      if pkt.error ≠ UAVCAN_PROTOCOL_FILE_ERROR_OK then
        { fw with node_id := 0 }
      else
        { fw with offset := fw.offset + pkt.data_len, last_read_ms := 0 }

/-! ## Message-type identifiers and signatures

Values from the generated DroneCAN DSDL headers (`dronecan_msgs.h`)
that the source file references. -/

def UAVCAN_PROTOCOL_GETNODEINFO_ID : Nat := 1
def UAVCAN_PROTOCOL_GETNODEINFO_REQUEST_SIGNATURE : Nat := 0xee468a8121c46a9e
def UAVCAN_PROTOCOL_PARAM_GETSET_ID : Nat := 11
def UAVCAN_PROTOCOL_PARAM_GETSET_SIGNATURE : Nat := 0xa7b622f939d1a4d5
def UAVCAN_PROTOCOL_PARAM_EXECUTEOPCODE_ID : Nat := 10
def UAVCAN_PROTOCOL_PARAM_EXECUTEOPCODE_SIGNATURE : Nat := 0x3b131ac5eb69d2cd
def UAVCAN_PROTOCOL_RESTARTNODE_ID : Nat := 5
def UAVCAN_PROTOCOL_RESTARTNODE_SIGNATURE : Nat := 0x569e05394a3017f0
def UAVCAN_PROTOCOL_FILE_BEGINFIRMWAREUPDATE_ID : Nat := 40
def UAVCAN_PROTOCOL_FILE_BEGINFIRMWAREUPDATE_SIGNATURE : Nat := 0xb7d725df72724126
def UAVCAN_PROTOCOL_FILE_READ_ID : Nat := 48
def UAVCAN_PROTOCOL_FILE_READ_SIGNATURE : Nat := 0x8dcdca939f33f678
def UAVCAN_PROTOCOL_DYNAMIC_NODE_ID_ALLOCATION_ID : Nat := 1
def UAVCAN_PROTOCOL_DYNAMIC_NODE_ID_ALLOCATION_SIGNATURE : Nat := 0x0b2a812620a11d40
def UAVCAN_PROTOCOL_DEBUG_LOGMESSAGE_ID : Nat := 16383
def UAVCAN_PROTOCOL_DEBUG_LOGMESSAGE_SIGNATURE : Nat := 0xd654a48e0c049d75
def UAVCAN_PROTOCOL_DEBUG_KEYVALUE_ID : Nat := 16370
def UAVCAN_PROTOCOL_DEBUG_KEYVALUE_SIGNATURE : Nat := 0xe02f25d6e0c98ae0

/-- `CanardTransferType` (libcanard). -/
inductive CanardTransferType where
  | CanardTransferTypeResponse
  | CanardTransferTypeRequest
  | CanardTransferTypeBroadcast
  deriving Repr, DecidableEq

/-- `DroneCANshoudlAcceptTransfer` (sic): the transport-layer
acceptance predicate.  Returns `some s` when the source returns `true`
after writing `s` to `*out_data_type_signature`, and `none` when it
returns `false` (leaving the out-parameter unwritten). -/
def DroneCANshoudlAcceptTransfer (data_type_id : Nat)
    (transfer_type : CanardTransferType) : Option Nat :=
  match transfer_type with
  | .CanardTransferTypeRequest =>
    if data_type_id = UAVCAN_PROTOCOL_GETNODEINFO_ID then
      some UAVCAN_PROTOCOL_GETNODEINFO_REQUEST_SIGNATURE
    else if data_type_id = UAVCAN_PROTOCOL_PARAM_GETSET_ID then
      some UAVCAN_PROTOCOL_PARAM_GETSET_SIGNATURE
    else if data_type_id = UAVCAN_PROTOCOL_PARAM_EXECUTEOPCODE_ID then
      some UAVCAN_PROTOCOL_PARAM_EXECUTEOPCODE_SIGNATURE
    else if data_type_id = UAVCAN_PROTOCOL_FILE_BEGINFIRMWAREUPDATE_ID then
      some UAVCAN_PROTOCOL_FILE_BEGINFIRMWAREUPDATE_SIGNATURE
    else if data_type_id = UAVCAN_PROTOCOL_FILE_READ_ID then
      some UAVCAN_PROTOCOL_FILE_READ_SIGNATURE
    else if data_type_id = UAVCAN_PROTOCOL_RESTARTNODE_ID then
      some UAVCAN_PROTOCOL_RESTARTNODE_ID
    else none
  | .CanardTransferTypeResponse =>
    if data_type_id = UAVCAN_PROTOCOL_FILE_READ_ID then
      some UAVCAN_PROTOCOL_FILE_READ_SIGNATURE
    else if data_type_id = UAVCAN_PROTOCOL_PARAM_GETSET_ID then
      some UAVCAN_PROTOCOL_PARAM_GETSET_SIGNATURE
    else none
  | .CanardTransferTypeBroadcast =>
    if data_type_id = UAVCAN_PROTOCOL_DYNAMIC_NODE_ID_ALLOCATION_ID then
      some UAVCAN_PROTOCOL_DYNAMIC_NODE_ID_ALLOCATION_SIGNATURE
    else if data_type_id = UAVCAN_PROTOCOL_DEBUG_LOGMESSAGE_ID then
      some UAVCAN_PROTOCOL_DEBUG_LOGMESSAGE_SIGNATURE
    else if data_type_id = UAVCAN_PROTOCOL_DEBUG_KEYVALUE_ID then
      some UAVCAN_PROTOCOL_DEBUG_KEYVALUE_SIGNATURE
    else none

/-- The handlers `DroneCANonTransferReceived` can route a completed
transfer to.  `restartNode` stands for the inline RestartNode block
(respond-ok then system reset; it never returns, so the missing
`break` after it is unreachable). -/
inductive Handler where
  | dnaAllocation
  | getNodeInfo
  | restartNode
  | paramGetSet
  | paramExecuteOpcode
  | beginFirmwareUpdate
  | fileReadResponse
  deriving Repr, DecidableEq

/-- `DroneCANonTransferReceived`: the transfer dispatcher, as the list
of handlers it invokes for a completed inbound transfer of the given
kind and data type id.  The dispatcher itself mutates nothing — its
only effects are the handler invocations listed here; transfers
matching no case fall through silently. -/
def DroneCANonTransferReceived (transfer_type : CanardTransferType)
    (data_type_id : Nat) : List Handler :=
  match transfer_type with
  | .CanardTransferTypeBroadcast =>
    if data_type_id = UAVCAN_PROTOCOL_DYNAMIC_NODE_ID_ALLOCATION_ID then
      [Handler.dnaAllocation]
    else []
  | .CanardTransferTypeRequest =>
    if data_type_id = UAVCAN_PROTOCOL_GETNODEINFO_ID then
      [Handler.getNodeInfo]
    else if data_type_id = UAVCAN_PROTOCOL_RESTARTNODE_ID then
      [Handler.restartNode]
    else if data_type_id = UAVCAN_PROTOCOL_PARAM_GETSET_ID then
      [Handler.paramGetSet]
    else if data_type_id = UAVCAN_PROTOCOL_PARAM_EXECUTEOPCODE_ID then
      [Handler.paramExecuteOpcode]
    else if data_type_id = UAVCAN_PROTOCOL_FILE_BEGINFIRMWAREUPDATE_ID then
      [Handler.beginFirmwareUpdate]
    else []
  | .CanardTransferTypeResponse => []

/-! ## Engine tick ordering -/

/-- The phases `DroneCAN::cycle` executes, in source order. -/
inductive Phase where
  | oneHz
  | rx
  | tx
  | dna
  deriving Repr, DecidableEq

/-- `uint32` wraparound subtraction, for `millis()` deltas. -/
def u32_sub (a b : Nat) : Nat :=
  (a % 4294967296 + 4294967296 - b % 4294967296) % 4294967296

/-- `DroneCAN::cycle` as the ordered list of phases it executes:
when more than 1000 ms have elapsed since `looptime`, the 1 Hz tasks
(`process1HzTasks`: stale-transfer purge and node-status broadcast)
run first; then always `processRx`, `processTx`, `request_DNA`, in
that order. -/
def cycle_phases (now looptime : Nat) : List Phase :=
  (if u32_sub now looptime > 1000 then [Phase.oneHz] else []) ++
    [Phase.rx, Phase.tx, Phase.dna]

/-! ## Helper lemmas -/

/-- A successful name scan yields an in-range index. -/
theorem param_name_scan_lt {n : String} :
    ∀ {ps : List parameter} {i : Nat}, param_name_scan n ps = some i →
      i < ps.length := by
  intro ps
  induction ps with
  | nil => intro i h; simp [param_name_scan] at h
  | cons p rest ih =>
    intro i h
    simp only [param_name_scan] at h
    split at h
    · cases h
      simp
    · simp only [Option.map_eq_some'] at h
      obtain ⟨j, hj, rfl⟩ := h
      have := ih hj
      simp only [List.length_cons]
      omega

/-- A successful name scan points at a parameter with exactly the
scanned-for name. -/
theorem param_name_scan_name {n : String} :
    ∀ {ps : List parameter} {i : Nat}, param_name_scan n ps = some i →
      (ps.getD i default).name = n := by
  intro ps
  induction ps with
  | nil => intro i h; simp [param_name_scan] at h
  | cons p rest ih =>
    intro i h
    simp only [param_name_scan] at h
    split at h
    · rename_i hp
      cases h
      simpa [List.getD_cons_zero] using hp
    · simp only [Option.map_eq_some'] at h
      obtain ⟨j, hj, rfl⟩ := h
      simpa [List.getD_cons_succ] using ih hj

/-- `List.set` then `getD` at the same in-range index returns the new
element. -/
theorem getD_set_self :
    ∀ (ps : List parameter) (i : Nat) (a : parameter), i < ps.length →
      ((ps.set i a).getD i default) = a := by
  intro ps
  induction ps with
  | nil => intro i a h; simp at h
  | cons p rest ih =>
    intro i a h
    cases i with
    | zero => rfl
    | succ j =>
      simp only [List.set_cons_succ, List.getD_cons_succ]
      exact ih j a (by simpa using h)

/-- The `SAVE` loop starting at slot `i` only writes offsets `≥ i * 4`:
any strictly smaller offset still reads its old value. -/
theorem save_parameters_from_apply_lt :
    ∀ (ps : List parameter) (i : Nat) (e : EEPROM) (o : Nat), o < i * 4 →
      save_parameters_from i ps e o = e o := by
  intro ps
  induction ps with
  | nil => intro i e o _; rfl
  | cons p rest ih =>
    intro i e o ho
    show save_parameters_from (i + 1) rest (eepromPut e (i * 4) p.value) o = e o
    rw [ih (i + 1) _ o (by omega)]
    simp only [eepromPut]
    rw [if_neg (by omega)]

/-- Reloading the slots written by the `SAVE` loop reproduces the
parameter list that was saved, whatever the starting slot index. -/
theorem read_after_save_from :
    ∀ (ps : List parameter) (i : Nat) (e : EEPROM),
      read_parameter_memory_from i ps (save_parameters_from i ps e) = ps := by
  intro ps
  induction ps with
  | nil => intro i e; rfl
  | cons p rest ih =>
    intro i e
    show ({ p with value :=
            eepromGet (save_parameters_from (i + 1) rest
              (eepromPut e (i * 4) p.value)) (i * 4) } :
          parameter) ::
        read_parameter_memory_from (i + 1) rest
          (save_parameters_from (i + 1) rest (eepromPut e (i * 4) p.value)) =
        p :: rest
    rw [show eepromGet (save_parameters_from (i + 1) rest
          (eepromPut e (i * 4) p.value)) (i * 4) = p.value by
        show save_parameters_from (i + 1) rest
          (eepromPut e (i * 4) p.value) (i * 4) = p.value
        rw [save_parameters_from_apply_lt rest (i + 1) _ (i * 4) (by omega)]
        simp [eepromPut]]
    rw [ih (i + 1)]

/-- Once the local node id is nonzero, a DNA step leaves the state
untouched and emits nothing. -/
theorem dna_step_of_allocated (u : List Nat) (st : DnaEngineState)
    (ev : DnaEvent) (h : st.node_id ≠ 0) :
    dna_step u st ev = (st, none) := by
  cases ev with
  | tick now r => simp [dna_step, request_DNA, h]
  | alloc now r src msg => simp [dna_step, handle_DNA_Allocation, h]

/-- Once the local node id is nonzero, any run of DNA events leaves the
state untouched and emits no allocation request. -/
theorem dna_run_of_allocated (u : List Nat) (st : DnaEngineState)
    (evs : List DnaEvent) (h : st.node_id ≠ 0) :
    dna_run u st evs = (st, []) := by
  induction evs with
  | nil => rfl
  | cons ev evs ih =>
    simp [dna_run, dna_step_of_allocated u st ev h, ih]

/-! ## Claim theorems -/

/-- C6: executing the SAVE opcode (each parameter's current value
written to its persistent slot at `index * 4`) followed by a reload of
all parameters from the persistent store reproduces exactly the
pre-save in-memory parameter list. -/
theorem C6_save_then_reload_roundtrip (ps : List parameter) (e : EEPROM)
    (req : ExecuteOpcodeRequest) (h : req.opcode = OPCODE_SAVE) :
    read_parameter_memory (handle_param_ExecuteOpcode ps e req).1
      (handle_param_ExecuteOpcode ps e req).2.1 = ps := by
  simp only [handle_param_ExecuteOpcode, h, OPCODE_SAVE, OPCODE_ERASE,
    read_parameter_memory]
  norm_num
  exact read_after_save_from ps 0 e

/-- Witness for C6 at a concrete list and store. -/
theorem C6_save_then_reload_roundtrip_witness :
    (0 : Nat) = OPCODE_SAVE ∧
    read_parameter_memory
        (handle_param_ExecuteOpcode [⟨"NODEID", 1, 42, 0, 127⟩]
          (fun _ => 0) ⟨0⟩).1
        (handle_param_ExecuteOpcode [⟨"NODEID", 1, 42, 0, 127⟩]
          (fun _ => 0) ⟨0⟩).2.1 =
      [⟨"NODEID", 1, 42, 0, 127⟩] :=
  ⟨rfl, C6_save_then_reload_roundtrip [⟨"NODEID", 1, 42, 0, 127⟩]
    (fun _ => 0) ⟨0⟩ rfl⟩

/-- C7: a firmware read response whose transfer id or source node id
does not match the outstanding read request leaves the session's byte
offset, remote node id and quiet-period timer unchanged. -/
theorem C7_mismatched_read_response_ignored (fw : firmware_update)
    (rx_transfer_id rx_source_node_id : Nat)
    (decoded : Option ReadResponsePkt)
    (h : (rx_transfer_id + 1) % 32 ≠ fw.transfer_id ∨
      rx_source_node_id ≠ fw.node_id) :
    (handle_file_read_response fw rx_transfer_id rx_source_node_id
        decoded).offset = fw.offset ∧
    (handle_file_read_response fw rx_transfer_id rx_source_node_id
        decoded).node_id = fw.node_id ∧
    (handle_file_read_response fw rx_transfer_id rx_source_node_id
        decoded).last_read_ms = fw.last_read_ms := by
  unfold handle_file_read_response
  rw [if_pos h]
  exact ⟨rfl, rfl, rfl⟩

/-- Witness for C7: transfer id off by one (expected 3, got reply to
transfer 4) on an otherwise well-formed successful response. -/
theorem C7_mismatched_read_response_ignored_witness :
    (handle_file_read_response ⟨5, 3, 100, 7⟩ 4 5 (some ⟨0, 10⟩)).offset = 7 ∧
    (handle_file_read_response ⟨5, 3, 100, 7⟩ 4 5 (some ⟨0, 10⟩)).node_id = 5 ∧
    (handle_file_read_response ⟨5, 3, 100, 7⟩ 4 5
        (some ⟨0, 10⟩)).last_read_ms = 100 :=
  C7_mismatched_read_response_ignored ⟨5, 3, 100, 7⟩ 4 5 (some ⟨0, 10⟩)
    (Or.inl (by decide))

/-- C9: at the failing input — a service request with the RestartNode
data type id (5), which the dispatcher handles — the acceptance
predicate accepts but writes the data type id constant into the
signature output instead of the RestartNode payload signature. -/
theorem C9_restartnode_writes_id_not_signature :
    DroneCANshoudlAcceptTransfer UAVCAN_PROTOCOL_RESTARTNODE_ID
        CanardTransferType.CanardTransferTypeRequest =
      some UAVCAN_PROTOCOL_RESTARTNODE_ID ∧
    UAVCAN_PROTOCOL_RESTARTNODE_ID ≠ UAVCAN_PROTOCOL_RESTARTNODE_SIGNATURE := by
  exact ⟨rfl, by decide⟩

/-- C10: the dispatcher routes no handler for any response-kind
transfer (so it mutates no engine state there), never invokes the
file-read response handler for any transfer, and yet the acceptance
predicate does accept file-read responses. -/
theorem C10_dispatcher_drops_responses :
    (∀ id, DroneCANonTransferReceived
        CanardTransferType.CanardTransferTypeResponse id = []) ∧
    (∀ ty id, Handler.fileReadResponse ∉ DroneCANonTransferReceived ty id) ∧
    DroneCANshoudlAcceptTransfer UAVCAN_PROTOCOL_FILE_READ_ID
        CanardTransferType.CanardTransferTypeResponse =
      some UAVCAN_PROTOCOL_FILE_READ_SIGNATURE := by
  refine ⟨fun _ => rfl, fun ty id => ?_, rfl⟩
  cases ty with
  | CanardTransferTypeResponse => simp [DroneCANonTransferReceived]
  | CanardTransferTypeBroadcast =>
    simp only [DroneCANonTransferReceived]
    split <;> simp
  | CanardTransferTypeRequest =>
    simp only [DroneCANonTransferReceived]
    repeat' split
    all_goals simp

/-- An in-range `getD` returns a member of the list. -/
theorem getD_mem_of_lt :
    ∀ (l : List parameter) (i : Nat), i < l.length → l.getD i default ∈ l := by
  intro l
  induction l with
  | nil => intro i h; simp at h
  | cons p rest ih =>
    intro i h
    cases i with
    | zero => simp [List.getD_cons_zero]
    | succ j =>
      simp only [List.getD_cons_succ]
      exact List.mem_cons_of_mem _ (ih j (by simpa using h))

/-- The value of the `i`-th parameter after the `ERASE` reset is the
`i`-th configured minimum. -/
theorem erased_getD_value :
    ∀ (ps : List parameter) (i : Nat), i < ps.length →
      ((ps.map (fun p => ({ p with value := p.min_value } : parameter))).getD i
          default).value = (ps.getD i default).min_value := by
  intro ps
  induction ps with
  | nil => intro i h; simp at h
  | cons p rest ih =>
    intro i h
    cases i with
    | zero => rfl
    | succ j =>
      simp only [List.map_cons, List.getD_cons_succ]
      exact ih j (by simpa using h)

/-- With pairwise-distinct parameter names, a by-name `getParameter` on
the `ERASE`-reset list returns the named parameter's configured
minimum. -/
theorem getParameter_erased_of_nodup :
    ∀ (ps : List parameter) (i : Nat), i < ps.length →
      (ps.map parameter.name).Nodup →
      getParameter (ps.map (fun p => ({ p with value := p.min_value } : parameter)))
        ((ps.getD i default).name) = (ps.getD i default).min_value := by
  intro ps
  induction ps with
  | nil => intro i h _; simp at h
  | cons p rest ih =>
    intro i hi hnd
    cases i with
    | zero =>
      simp only [List.getD_cons_zero, List.map_cons]
      simp [getParameter]
    | succ j =>
      simp only [List.getD_cons_succ, List.map_cons]
      have hj : j < rest.length := by simpa using hi
      have hnotin : p.name ∉ rest.map parameter.name :=
        (List.nodup_cons.mp (by simpa using hnd)).1
      have hne : (rest.getD j default).name ≠ p.name := by
        intro hEq
        exact hnotin
          (hEq ▸ List.mem_map_of_mem parameter.name (getD_mem_of_lt rest j hj))
      rw [getParameter, if_neg hne]
      exact ih j hj (List.nodup_cons.mp (by simpa using hnd)).2

/-- C5: after a parameter ExecuteOpcode request with opcode `ERASE`,
every parameter's in-memory value equals its configured minimum, and
(for a list with distinct names, as the parameter list is) a
subsequent by-name get on any parameter returns that minimum. -/
theorem C5_erase_resets_all_to_min (ps : List parameter) (e : EEPROM)
    (req : ExecuteOpcodeRequest) (h : req.opcode = OPCODE_ERASE) :
    (∀ i, i < ps.length →
      ((handle_param_ExecuteOpcode ps e req).1.getD i default).value =
        (ps.getD i default).min_value) ∧
    ((ps.map parameter.name).Nodup → ∀ i, i < ps.length →
      getParameter (handle_param_ExecuteOpcode ps e req).1
        ((ps.getD i default).name) = (ps.getD i default).min_value) := by
  have h1 : (handle_param_ExecuteOpcode ps e req).1 =
      ps.map (fun p => ({ p with value := p.min_value } : parameter)) := by
    simp [handle_param_ExecuteOpcode, h, OPCODE_ERASE]
  rw [h1]
  exact ⟨fun i hi => erased_getD_value ps i hi,
    fun hnd i hi => getParameter_erased_of_nodup ps i hi hnd⟩

/-- Witness for C5 on a concrete two-parameter list. -/
theorem C5_erase_resets_all_to_min_witness :
    ((handle_param_ExecuteOpcode
        [⟨"NODEID", 1, 42, 0, 127⟩, ⟨"GAIN", 2, 3, 1, 9⟩]
        (fun _ => 0) ⟨1⟩).1.getD 0 default).value =
      (([⟨"NODEID", 1, 42, 0, 127⟩, ⟨"GAIN", 2, 3, 1, 9⟩] :
          List parameter).getD 0 default).min_value ∧
    getParameter (handle_param_ExecuteOpcode
        [⟨"NODEID", 1, 42, 0, 127⟩, ⟨"GAIN", 2, 3, 1, 9⟩]
        (fun _ => 0) ⟨1⟩).1
        (([⟨"NODEID", 1, 42, 0, 127⟩, ⟨"GAIN", 2, 3, 1, 9⟩] :
          List parameter).getD 1 default).name =
      (([⟨"NODEID", 1, 42, 0, 127⟩, ⟨"GAIN", 2, 3, 1, 9⟩] :
          List parameter).getD 1 default).min_value := by
  have h := C5_erase_resets_all_to_min
    [⟨"NODEID", 1, 42, 0, 127⟩, ⟨"GAIN", 2, 3, 1, 9⟩] (fun _ => 0) ⟨1⟩ rfl
  exact ⟨h.1 0 (by decide), h.2 (by decide) 1 (by decide)⟩

/-- C8: while unallocated, an allocator response (source ≠ 0) whose
unique-id prefix does not match the local unique id byte-for-byte
resets `unique_id_offset` to 0 and leaves the node unallocated. -/
theorem C8_uid_mismatch_resets_offset (my_uid : List Nat)
    (now r src : Nat) (msg : AllocationMsg) (st : DnaEngineState)
    (h0 : st.node_id = 0) (h1 : src ≠ 0)
    (h2 : msg.uid_data.take msg.uid_len ≠ my_uid.take msg.uid_len) :
    (handle_DNA_Allocation my_uid now r src msg
        st).DNA.node_id_allocation_unique_id_offset = 0 ∧
    (handle_DNA_Allocation my_uid now r src msg st).node_id = 0 := by
  unfold handle_DNA_Allocation
  rw [h0]
  rw [if_neg (show ¬ (0 : Nat) ≠ 0 by simp)]
  dsimp only []
  rw [if_neg h1, if_pos h2]
  exact ⟨rfl, rfl⟩

/-- Witness for C8: a mismatching 4-byte prefix resets a nonzero
offset. -/
theorem C8_uid_mismatch_resets_offset_witness :
    (handle_DNA_Allocation (List.replicate 16 1) 0 0 42 ⟨7, 4, [9, 9, 9, 9]⟩
        ⟨0, ⟨0, 5⟩, [], 0⟩).DNA.node_id_allocation_unique_id_offset = 0 ∧
    (handle_DNA_Allocation (List.replicate 16 1) 0 0 42 ⟨7, 4, [9, 9, 9, 9]⟩
        ⟨0, ⟨0, 5⟩, [], 0⟩).node_id = 0 :=
  C8_uid_mismatch_resets_offset (List.replicate 16 1) 0 0 42
    ⟨7, 4, [9, 9, 9, 9]⟩ ⟨0, ⟨0, 5⟩, [], 0⟩ rfl (by decide) (by decide)

/-- C3 counterexample: at `now = 2000, looptime = 0` the 1 Hz guard
fires and the tick executes the 1 Hz tasks FIRST — before inbound
processing and outbound draining — contradicting "outbound-frame
draining is performed before the 1 Hz tasks". -/
theorem C3_oneHz_runs_before_tx :
    cycle_phases 2000 0 = [Phase.oneHz, Phase.rx, Phase.tx, Phase.dna] ∧
    (cycle_phases 2000 0).indexOf Phase.oneHz <
      (cycle_phases 2000 0).indexOf Phase.tx := by
  decide

/-- C3 (amended): within every tick, inbound-frame processing precedes
outbound-frame draining, which precedes the DNA tick; the 1 Hz tasks,
when due, run at the very start of the tick (before RX and TX), not
after outbound draining. -/
theorem C3_tick_ordering (now looptime : Nat) :
    ((cycle_phases now looptime).indexOf Phase.rx <
      (cycle_phases now looptime).indexOf Phase.tx) ∧
    ((cycle_phases now looptime).indexOf Phase.tx <
      (cycle_phases now looptime).indexOf Phase.dna) ∧
    (Phase.oneHz ∈ cycle_phases now looptime →
      (cycle_phases now looptime).indexOf Phase.oneHz = 0) := by
  unfold cycle_phases
  by_cases h : u32_sub now looptime > 1000
  · rw [if_pos h]
    exact ⟨by decide, by decide, fun _ => by decide⟩
  · rw [if_neg h]
    exact ⟨by decide, by decide, fun hmem => absurd hmem (by decide)⟩

/-- Witness for C3 at a tick where the 1 Hz guard fires. -/
theorem C3_tick_ordering_witness :
    (cycle_phases 2000 0).indexOf Phase.oneHz = 0 :=
  (C3_tick_ordering 2000 0).2.2 (by decide)

/-- C4: at the failing input (a parameter list without "NODEID", so the
lookup yields the not-found sentinel), `get_preferred_node_id` does
return the fixed preferred id, but the attempted default write is an
in-memory `setParameter` that fails (the name is absent) and performs
no EEPROM write — the function does not even receive the store — so a
reload from the persistent store followed by a read of "NODEID" still
yields the sentinel, not the preferred value. -/
theorem C4_default_not_persisted :
    (get_preferred_node_id []).1 = PREFERRED_NODE_ID ∧
    (setParameter [] "NODEID" (PREFERRED_NODE_ID : ℚ)).2 = -1 ∧
    (∀ e : EEPROM,
      getParameter (read_parameter_memory (get_preferred_node_id []).2 e)
        "NODEID" = FLT_MIN) ∧
    FLT_MIN ≠ (PREFERRED_NODE_ID : ℚ) := by
  have hg : getParameter ([] : List parameter) "NODEID" = FLT_MIN := rfl
  have h1 : get_preferred_node_id [] =
      (PREFERRED_NODE_ID, (setParameter [] "NODEID" (PREFERRED_NODE_ID : ℚ)).1) := by
    unfold get_preferred_node_id
    rw [if_pos hg]
  refine ⟨by rw [h1], rfl, fun e => by rw [h1]; rfl, ?_⟩
  norm_num [FLT_MIN, PREFERRED_NODE_ID]

/-- With a non-empty name whose scan hits, the lookup resolves to the
scan result. -/
theorem param_lookup_idx_of_scan (ps : List parameter) (req : GetSetRequest)
    (i : Nat) (hlen : 0 < req.name.length)
    (hscan : param_name_scan req.name ps = some i) :
    param_lookup_idx ps req = some i := by
  unfold param_lookup_idx
  rw [if_pos hlen, hscan]

/-- With an empty name, or a name the scan misses, the lookup falls
back to the positional index when in range, else fails. -/
theorem param_lookup_idx_of_no_name_hit (ps : List parameter)
    (req : GetSetRequest)
    (hob : req.name.length = 0 ∨ param_name_scan req.name ps = none) :
    param_lookup_idx ps req =
      if req.index < ps.length then some req.index else none := by
  unfold param_lookup_idx
  rcases hob with h0 | hn
  · rw [if_neg (by omega)]
  · by_cases hl : req.name.length > 0
    · rw [if_pos hl, hn]
    · rw [if_neg hl]

/-- The GetSet response echoes the name of the parameter the lookup
resolved (a set request may change its value but never its name). -/
theorem handle_param_GetSet_rsp_name (ps : List parameter) (e : EEPROM)
    (req : GetSetRequest) (idx : Nat)
    (hidx : param_lookup_idx ps req = some idx) (hlt : idx < ps.length) :
    (handle_param_GetSet ps e req).2.2.name = (ps.getD idx default).name := by
  unfold handle_param_GetSet
  rw [hidx]
  dsimp only []
  by_cases ht : req.union_tag ≠ UAVCAN_PROTOCOL_PARAM_VALUE_EMPTY
  · rw [if_pos ht]
    by_cases h1 : (ps.getD idx default).type =
        UAVCAN_PROTOCOL_PARAM_VALUE_INTEGER_VALUE
    · rw [if_pos h1]
      show ((ps.set idx _).getD idx default).name = _
      rw [getD_set_self ps idx _ hlt]
    · rw [if_neg h1]
      by_cases h2 : (ps.getD idx default).type =
          UAVCAN_PROTOCOL_PARAM_VALUE_REAL_VALUE
      · rw [if_pos h2]
        show ((ps.set idx _).getD idx default).name = _
        rw [getD_set_self ps idx _ hlt]
      · rw [if_neg h2]
  · rw [if_neg ht]

/-- C1 counterexample: with parameter list `[{"A", Integer, 5, 0, 10}]`
and a request whose name "B" is non-empty but matches no parameter
(index 0), the claim demands a "not found" response with an empty
name, yet the handler falls back to positional lookup and echoes
parameter "A". -/
theorem C1_name_miss_falls_back_to_index :
    (handle_param_GetSet [⟨"A", 1, 5, 0, 10⟩] (fun _ => 0)
        ⟨"B", 0, 0, 0, 0⟩).2.2.name = "A" ∧
    ("A" : String) ≠ "" := by
  exact ⟨rfl, by decide⟩

/-- C1 (amended): a non-empty request name triggers the exact-match
name scan, and a hit resolves to that parameter (the response echoes
its name, which equals the request's name); when the name is empty OR
the scan misses, a positional lookup by index is used whenever
`index < count`; only when neither resolves is the result "not found",
answered with an empty name and empty (zeroed) value, leaving
parameters and store untouched. -/
theorem C1_lookup_resolution (ps : List parameter) (e : EEPROM)
    (req : GetSetRequest) :
    (∀ i, 0 < req.name.length → param_name_scan req.name ps = some i →
      (handle_param_GetSet ps e req).2.2.name = (ps.getD i default).name ∧
      (ps.getD i default).name = req.name) ∧
    ((req.name.length = 0 ∨ param_name_scan req.name ps = none) →
      req.index < ps.length →
      (handle_param_GetSet ps e req).2.2.name =
        (ps.getD req.index default).name) ∧
    ((req.name.length = 0 ∨ param_name_scan req.name ps = none) →
      ps.length ≤ req.index →
      handle_param_GetSet ps e req =
        (ps, e, ⟨UAVCAN_PROTOCOL_PARAM_VALUE_EMPTY, 0, 0, ""⟩)) := by
  refine ⟨?_, ?_, ?_⟩
  · intro i hlen hscan
    exact ⟨handle_param_GetSet_rsp_name ps e req i
        (param_lookup_idx_of_scan ps req i hlen hscan)
        (param_name_scan_lt hscan),
      param_name_scan_name hscan⟩
  · intro hob hlt
    exact handle_param_GetSet_rsp_name ps e req req.index
      (by rw [param_lookup_idx_of_no_name_hit ps req hob, if_pos hlt]) hlt
  · intro hob hge
    have hnone : param_lookup_idx ps req = none := by
      rw [param_lookup_idx_of_no_name_hit ps req hob, if_neg (by omega)]
    unfold handle_param_GetSet
    rw [hnone]

/-- Witness for C1 (amended) at an empty-name request resolved
positionally. -/
theorem C1_lookup_resolution_witness :
    (handle_param_GetSet [⟨"NODEID", 1, 5, 0, 127⟩] (fun _ => 0)
        ⟨"", 0, 0, 0, 0⟩).2.2.name =
      (([⟨"NODEID", 1, 5, 0, 127⟩] : List parameter).getD 0 default).name :=
  (C1_lookup_resolution [⟨"NODEID", 1, 5, 0, 127⟩] (fun _ => 0)
    ⟨"", 0, 0, 0, 0⟩).2.1 (Or.inl rfl) (by decide)

/-- C2 counterexample: the allocation message's node-id field is 7 bits
and may carry 0; a full-length-matching response supplying node id 0
leaves the node id at 0 (still the broadcast/unallocated id), so the
very next due tick broadcasts another allocation request —
contradicting "no allocation-request broadcast is ever emitted
again". -/
theorem C2_zero_id_response_keeps_broadcasting :
    (handle_DNA_Allocation (List.replicate 16 0) 0 0 5
        ⟨0, 16, List.replicate 16 0⟩ ⟨0, ⟨0, 0⟩, [], 0⟩).node_id = 0 ∧
    (dna_run (List.replicate 16 0)
        (handle_DNA_Allocation (List.replicate 16 0) 0 0 5
          ⟨0, 16, List.replicate 16 0⟩ ⟨0, ⟨0, 0⟩, [], 0⟩)
        [DnaEvent.tick 1000 0]).2 ≠ [] := by
  decide

/-- C2 (amended): on an allocator response (source ≠ 0) whose unique-id
prefix matches the local unique hardware id at full length 16 and
which supplies a NONZERO node id (≤ 127), the node adopts that id as
its identity, and afterwards no sequence of engine ticks or further
allocation messages ever emits an allocation-request broadcast or
changes the adopted id.  (A zero supplied id leaves the node
unallocated and broadcasting — see the counterexample.) -/
theorem C2_full_match_allocates_and_silences (my_uid : List Nat)
    (now r src : Nat) (msg : AllocationMsg) (st : DnaEngineState)
    (evs : List DnaEvent)
    (h0 : st.node_id = 0) (h1 : src ≠ 0) (h2 : msg.uid_len = 16)
    (h3 : msg.uid_data.take msg.uid_len = my_uid.take msg.uid_len)
    (h4 : msg.node_id ≤ 127) (h5 : msg.node_id ≠ 0) :
    (handle_DNA_Allocation my_uid now r src msg st).node_id = msg.node_id ∧
    (dna_run my_uid (handle_DNA_Allocation my_uid now r src msg st)
        evs).2 = [] ∧
    (dna_run my_uid (handle_DNA_Allocation my_uid now r src msg st)
        evs).1.node_id = msg.node_id := by
  have hA : (handle_DNA_Allocation my_uid now r src msg st).node_id =
      msg.node_id := by
    unfold handle_DNA_Allocation
    rw [h0]
    rw [if_neg (show ¬ (0 : Nat) ≠ 0 by simp)]
    dsimp only []
    rw [if_neg h1]
    rw [if_neg (show ¬ msg.uid_data.take msg.uid_len ≠
        my_uid.take msg.uid_len by simp [h3])]
    rw [if_neg (show ¬ msg.uid_len < 16 by omega)]
    show canardSetLocalNodeID 0 msg.node_id = msg.node_id
    unfold canardSetLocalNodeID
    rw [if_pos ⟨rfl, h4⟩]
  have hrun := dna_run_of_allocated my_uid
    (handle_DNA_Allocation my_uid now r src msg st) evs
    (by rw [hA]; exact h5)
  refine ⟨hA, by rw [hrun], by rw [hrun]; exact hA⟩

/-- Witness for C2 (amended): a full-length match supplying node id 7,
followed by a tick and a further allocation message, none of which
emits anything or changes the id. -/
theorem C2_full_match_allocates_and_silences_witness :
    (handle_DNA_Allocation (List.replicate 16 1) 0 0 1
        ⟨7, 16, List.replicate 16 1⟩ ⟨0, ⟨0, 3⟩, [], 0⟩).node_id = 7 ∧
    (dna_run (List.replicate 16 1)
        (handle_DNA_Allocation (List.replicate 16 1) 0 0 1
          ⟨7, 16, List.replicate 16 1⟩ ⟨0, ⟨0, 3⟩, [], 0⟩)
        [DnaEvent.tick 1000 0,
         DnaEvent.alloc 2000 1 9 ⟨4, 16, List.replicate 16 1⟩]).2 = [] ∧
    (dna_run (List.replicate 16 1)
        (handle_DNA_Allocation (List.replicate 16 1) 0 0 1
          ⟨7, 16, List.replicate 16 1⟩ ⟨0, ⟨0, 3⟩, [], 0⟩)
        [DnaEvent.tick 1000 0,
         DnaEvent.alloc 2000 1 9 ⟨4, 16, List.replicate 16 1⟩]).1.node_id =
      7 :=
  C2_full_match_allocates_and_silences (List.replicate 16 1) 0 0 1
    ⟨7, 16, List.replicate 16 1⟩ ⟨0, ⟨0, 3⟩, [], 0⟩
    [DnaEvent.tick 1000 0,
     DnaEvent.alloc 2000 1 9 ⟨4, 16, List.replicate 16 1⟩]
    rfl (by decide) rfl rfl (by decide) (by decide)
